import Mathlib

/-!
Shallow embedding of `scripts/eval.py` from the Randomly Wired NN
reproduction repository, together with theorems settling the frozen
claims about its specification.

The script has two functions, `main` and `infer`.  `infer` iterates a
validation queue, updating four running meters (loss, top-1, top-5,
per-image speed) and periodically logging; `main` checks GPU
availability, loads graph files by regime, instantiates the model and
runs `infer` once per epoch.  Tensor values produced by the external
framework (loss, precisions, wall-clock durations) are opaque inputs
here, carried by a `Batch` record; floating point values are embedded
as rationals.
-/

namespace Eval

/-- One batch yielded by the validation queue, together with the opaque
values the external framework produces for it inside the loop body of
`infer`: the batch size `inputs.size(0)`, the loss value
`val_loss.item()`, the two precision values from `utils.accuracy`, and
the wall-clock durations of the four phases of the body (device
transfer, model forward pass, loss computation, accuracy computation). -/
structure Batch where
  n : Nat
  lossVal : ℚ
  prec1 : ℚ
  prec5 : ℚ
  dTransfer : ℚ
  dForward : ℚ
  dLoss : ℚ
  dAcc : ℚ
deriving DecidableEq, Repr

/-- Modelled from the spec: `utils.AvgrageMeter` lives in `utils.py`,
which is not part of the provided sources; the spec describes it as
"accumulate a running mean given a value and a sample count" with
averages "weighted by batch size".  The meter keeps a weighted sum and
a sample count; its average is their quotient. -/
structure AvgrageMeter where
  sum : ℚ
  cnt : Nat
deriving DecidableEq, Repr

/-- A fresh meter, as constructed at the top of `infer`. -/
def AvgrageMeter.init : AvgrageMeter := ⟨0, 0⟩

/-- Modelled from the spec: one `update(val, n)` call adds `val` with
weight `n` to the running mean. -/
def AvgrageMeter.update (m : AvgrageMeter) (val : ℚ) (n : Nat) : AvgrageMeter :=
  ⟨m.sum + val * (n : ℚ), m.cnt + n⟩

/-- The meter's current average: weighted sum over total count. -/
def AvgrageMeter.avg (m : AvgrageMeter) : ℚ := m.sum / (m.cnt : ℚ)

/-- Graph-specification file selection in `main` (lines 62-72): the
small regime (`regime = True`) reads suffixes 3,4,5; the regular regime
reads suffixes 2,3,4,5. -/
def graphFiles (regime : Bool) (graph_txt : String) : List String :=
  if regime then
    [graph_txt ++ "3.txt", graph_txt ++ "4.txt", graph_txt ++ "5.txt"]
  else
    [graph_txt ++ "2.txt", graph_txt ++ "3.txt", graph_txt ++ "4.txt", graph_txt ++ "5.txt"]

/-- Python truthiness of a string, as applied by `bool(s)`: every
non-empty string is `True`, the empty string is `False`.  This is what
`argparse` does to the command-line token when a flag is declared with
`type=bool`. -/
def pyBoolOfString (s : String) : Bool := s != ""

/-- The parsed value of `--regime` (declared `type=bool, default=True`):
the default when the flag is absent, otherwise `bool` of the supplied
token. -/
def parseRegime : Option String → Bool
  | none => true
  | some s => pyBoolOfString s

/-- Python's `%` on integers, which raises `ZeroDivisionError` when the
modulus is zero: embedded as an `Option`, `none` marking the raised
exception. -/
def pyMod (a b : Nat) : Option Nat :=
  if b = 0 then none else some (a % b)

/-- The operations of the loop body of `infer`, in source order
(lines 103-120). -/
inductive InferOp
  | dataTransfer
  | forwardPass
  | lossCompute
  | accuracyCompute
  | meterUpdate
  | reportCheck
deriving DecidableEq, Repr

/-- Whether an operation of the loop body executes inside the
`with torch.no_grad():` block (lines 106-109): only the timed model
forward pass does; the loss computation on line 110 is dedented out of
the block, as are the accuracy computation and the meter updates. -/
def underNoGrad : InferOp → Bool
  | .forwardPass => true
  | _ => false

/-- Gradient tracking is enabled for an operation exactly when it is
not under the `no_grad` context manager. -/
def gradTrackingEnabled (op : InferOp) : Bool := !underNoGrad op

/-- The loop body of `infer` as the list of its operations in source
order. -/
def inferLoopBody : List InferOp :=
  [.dataTransfer, .forwardPass, .lossCompute, .accuracyCompute, .meterUpdate, .reportCheck]

/-- Timestamp `tic = time.time()` taken inside the `no_grad` block,
right before the forward pass: the loop-body start time `t0` plus the
device-transfer duration. -/
def tic (t0 : ℚ) (b : Batch) : ℚ := t0 + b.dTransfer

/-- Timestamp `toc = time.time()` taken right after the forward pass. -/
def toc (t0 : ℚ) (b : Batch) : ℚ := tic t0 b + b.dForward

/-- Line 112 of `infer`: `per_image_speed = 1.0 * (toc - tic) / n`. -/
def per_image_speed (t0 : ℚ) (b : Batch) : ℚ :=
  1 * (toc t0 b - tic t0 b) / (b.n : ℚ)

/-- One progress line logged by `infer` (line 120): the step index and
the four running averages, in the order they are formatted. -/
structure LogLine where
  step : Nat
  objsAvg : ℚ
  top1Avg : ℚ
  top5Avg : ℚ
  speedAvg : ℚ
deriving DecidableEq, Repr

/-- The mutable state of `infer`: its four meters plus the progress
lines emitted so far. -/
structure InferState where
  objs : AvgrageMeter
  top1 : AvgrageMeter
  top5 : AvgrageMeter
  speed : AvgrageMeter
  logs : List LogLine
deriving DecidableEq, Repr

/-- The state of `infer` before the loop: four fresh meters, no logs. -/
def InferState.init : InferState :=
  ⟨AvgrageMeter.init, AvgrageMeter.init, AvgrageMeter.init, AvgrageMeter.init, []⟩

/-- Lines 113-117 of the loop body: the four `update` calls, each
weighted by the batch size `n = inputs.size(0)`, the speed meter fed
with `per_image_speed`. -/
def meterStep (s : InferState) (b : Batch) : InferState :=
  { objs := s.objs.update b.lossVal b.n
    top1 := s.top1.update b.prec1 b.n
    top5 := s.top5.update b.prec5 b.n
    speed := s.speed.update (per_image_speed 0 b) b.n
    logs := s.logs }

/-- Line 120: the progress line logged when the report condition holds,
carrying the current running averages. -/
def reportStep (step : Nat) (s : InferState) : InferState :=
  { s with logs := s.logs ++ [⟨step, s.objs.avg, s.top1.avg, s.top5.avg, s.speed.avg⟩] }

/-- The enumerated loop of `infer` (lines 102-120).  Each batch updates
the four meters with that batch's loss, precisions and per-image speed,
weighted by the batch size `n`, then evaluates
`step % args.report_freq == 0`; a zero `report_freq` makes the modulo
raise `ZeroDivisionError`, embedded as `Except.error step`.  When the
remainder is zero a progress line carrying the current averages is
appended. -/
def inferLoop (freq : Nat) : Nat → InferState → List Batch → Except Nat InferState
  | _, s, [] => .ok s
  | step, s, b :: rest =>
    let s1 := meterStep s b
    match pyMod step freq with
    | none => .error step
    | some r =>
      inferLoop freq (step + 1) (if r = 0 then reportStep step s1 else s1) rest

/-- The `infer` function (lines 94-122): run the loop over the
validation queue and return the triple
`(top1.avg, objs.avg, speed.avg)`, paired here with the final state so
the logs stay observable. -/
def infer (freq : Nat) (valid_queue : List Batch) : Except Nat (ℚ × ℚ × ℚ × InferState) :=
  match inferLoop freq 0 InferState.init valid_queue with
  | .error e => .error e
  | .ok s => .ok (s.top1.avg, s.objs.avg, s.speed.avg, s)

/-- The values `main` emits per epoch (lines 87-90): it logs
`valid_acc` (the returned top-1 average) and `valid_speed_per_image`
(the returned speed average) and writes one `val_loss` scalar (the
returned loss average). -/
def epochOutputs (freq : Nat) (valid_queue : List Batch) : Except Nat (List ℚ) :=
  match infer freq valid_queue with
  | .error e => .error e
  | .ok (acc, obj, speed, _) => .ok [acc, speed, obj]

/-- What one epoch of `main`'s loop records: the epoch index, the logged
`valid_acc` and `valid_speed_per_image` values, and the `val_loss`
scalar written for that epoch. -/
structure EpochLog where
  epoch : Nat
  validAcc : ℚ
  validSpeed : ℚ
  valLoss : ℚ
deriving DecidableEq, Repr

/-- The epoch loop of `main` (lines 86-90): `for epoch in range(epochs)`
calls `infer` on the same fixed validation queue once per epoch and
records the per-epoch outputs; an exception from `infer` propagates. -/
def mainEpochLoop (freq : Nat) (valid_queue : List Batch) : Nat → Except Nat (List EpochLog)
  | 0 => .ok []
  | e + 1 =>
    match mainEpochLoop freq valid_queue e with
    | .error k => .error k
    | .ok prev =>
      match infer freq valid_queue with
      | .error k => .error k
      | .ok (acc, obj, speed, _) => .ok (prev ++ [⟨e, acc, speed, obj⟩])

/-- The observable startup events of `main`, in source order. -/
inductive MainEvent
  | logNoGpu
  | deviceSetup
  | graphLoad
  | modelInit
  | dataLoad
  | inferCall (epoch : Nat)
  | logValidAcc (epoch : Nat)
  | logValidSpeed (epoch : Nat)
  | scalarValLoss (epoch : Nat)
deriving DecidableEq, Repr

/-- How `main` terminates: `sys.exit(code)` or falling off the end. -/
inductive MainResult
  | exited (code : Nat)
  | completed
deriving DecidableEq, Repr

/-- The events of one iteration of `main`'s epoch loop. -/
def epochEvents (e : Nat) : List MainEvent :=
  [.inferCall e, .logValidAcc e, .logValidSpeed e, .scalarValLoss e]

/-- Control flow of `main` (lines 46-91): if no GPU device is
available it logs a message and exits with status 1 before anything
else; otherwise it seeds the devices, loads the graph files,
instantiates the model, builds the dataset and runs the epoch loop,
with no further exit anywhere. -/
def mainRun (cudaAvailable : Bool) (epochs : Nat) : MainResult × List MainEvent :=
  if cudaAvailable then
    (.completed,
      [.deviceSetup, .graphLoad, .modelInit, .dataLoad] ++ (List.range epochs).flatMap epochEvents)
  else
    (.exited 1, [.logNoGpu])

/-- The top-5 running average held by `infer`'s `top5` meter at the end
of a run.  It is computed and logged inside the loop but is not part of
the returned triple. -/
def inferTop5Avg (freq : Nat) (valid_queue : List Batch) : Option ℚ :=
  match infer freq valid_queue with
  | .error _ => none
  | .ok (_, _, _, s) => some s.top5.avg

/-- A concrete one-element validation queue used to evaluate the
embedding: batch size 1, loss 2, top-1 precision 3, top-5 precision 5,
and phase durations 11 (transfer), 7 (forward), 13 (loss), 17
(accuracy). -/
def batchA : Batch := ⟨1, 2, 3, 5, 11, 7, 13, 17⟩

/-- The state of `infer` after processing `batchA` once with a report
frequency that fires at step 0. -/
def stateA : InferState := ⟨⟨2, 1⟩, ⟨3, 1⟩, ⟨5, 1⟩, ⟨7, 1⟩, [⟨0, 2, 3, 5, 7⟩]⟩

/-- Folding meter updates accumulates the weighted sum of the fed
values. -/
theorem foldl_update_sum (l : List (ℚ × Nat)) :
    ∀ m : AvgrageMeter,
      (l.foldl (fun m vn => m.update vn.1 vn.2) m).sum
        = m.sum + (l.map fun vn => vn.1 * (vn.2 : ℚ)).sum := by
  induction l with
  | nil => intro m; simp
  | cons v rest ih =>
    intro m
    rw [List.foldl_cons, ih]
    simp [AvgrageMeter.update]
    ring

/-- Folding meter updates accumulates the total sample count. -/
theorem foldl_update_cnt (l : List (ℚ × Nat)) :
    ∀ m : AvgrageMeter,
      (l.foldl (fun m vn => m.update vn.1 vn.2) m).cnt
        = m.cnt + (l.map Prod.snd).sum := by
  induction l with
  | nil => intro m; simp
  | cons v rest ih =>
    intro m
    rw [List.foldl_cons, ih]
    simp [AvgrageMeter.update]
    omega

/-- One unfolding of `inferLoop` when the report frequency is not
zero: the modulo succeeds and the loop advances over the head batch. -/
theorem inferLoop_cons (freq : Nat) (hf : freq ≠ 0) (step : Nat) (s : InferState)
    (b : Batch) (rest : List Batch) :
    inferLoop freq step s (b :: rest)
      = inferLoop freq (step + 1)
          (if step % freq = 0 then reportStep step (meterStep s b) else meterStep s b) rest := by
  simp [inferLoop, pyMod, hf]

/-- With a non-zero report frequency `inferLoop` always succeeds and
the steps of its emitted log lines are exactly the step indices
divisible by the frequency. -/
theorem inferLoop_logs (freq : Nat) (hf : freq ≠ 0) (batches : List Batch) :
    ∀ (step : Nat) (s : InferState),
      ∃ s', inferLoop freq step s batches = Except.ok s' ∧
        s'.logs.map LogLine.step
          = s.logs.map LogLine.step
            ++ ((List.range' step batches.length).filter fun k => k % freq = 0) := by
  induction batches with
  | nil => intro step s; exact ⟨s, rfl, by simp [inferLoop]⟩
  | cons b rest ih =>
    intro step s
    rw [inferLoop_cons freq hf step s b rest]
    by_cases h0 : step % freq = 0
    · obtain ⟨s', h1, h2⟩ := ih (step + 1) (reportStep step (meterStep s b))
      refine ⟨s', by simpa [h0] using h1, ?_⟩
      rw [h2]
      simp [reportStep, meterStep, List.length_cons, List.range'_succ, List.filter_cons, h0]
    · obtain ⟨s', h1, h2⟩ := ih (step + 1) (meterStep s b)
      refine ⟨s', by simpa [h0] using h1, ?_⟩
      rw [h2]
      simp [meterStep, List.length_cons, List.range'_succ, List.filter_cons, h0]

/-- With a non-zero report frequency `infer` succeeds and its final
state logs exactly the divisible steps of `0, ..., len - 1`. -/
theorem infer_ok (freq : Nat) (hf : freq ≠ 0) (valid_queue : List Batch) :
    ∃ s, infer freq valid_queue = Except.ok (s.top1.avg, s.objs.avg, s.speed.avg, s) ∧
      s.logs.map LogLine.step
        = ((List.range valid_queue.length).filter fun k => k % freq = 0) := by
  obtain ⟨s, h1, h2⟩ := inferLoop_logs freq hf valid_queue 0 InferState.init
  refine ⟨s, by simp [infer, h1], ?_⟩
  simpa [InferState.init, List.range_eq_range'] using h2

/-- C1, counterexample.  The claim that every operation of the loop
body of `infer` runs with gradient tracking disabled is false: the loss
computation on line 110 sits outside the `with torch.no_grad():` block
and therefore runs with gradient tracking enabled. -/
theorem C1_grad_counterexample :
    ¬ ∀ op ∈ inferLoopBody, gradTrackingEnabled op = false := by
  decide

/-- C1, amended.  Exactly one operation of the loop body of `infer`
runs with gradient tracking disabled: the model forward pass, the only
operation inside the `torch.no_grad()` block; the loss computation (and
the data transfer, accuracy computation, meter updates and report
check) run outside it. -/
theorem C1_no_grad_extent :
    ∀ op ∈ inferLoopBody, (gradTrackingEnabled op = false ↔ op = InferOp.forwardPass) := by
  decide

/-- Witness for C1: instantiation at the forward pass and at the loss
computation. -/
theorem C1_no_grad_extent_witness :
    ((gradTrackingEnabled InferOp.forwardPass = false ↔ InferOp.forwardPass = InferOp.forwardPass)
      ∧ (gradTrackingEnabled InferOp.lossCompute = false ↔ InferOp.lossCompute = InferOp.forwardPass)) :=
  ⟨C1_no_grad_extent InferOp.forwardPass (by decide),
   C1_no_grad_extent InferOp.lossCompute (by decide)⟩

/-- C2, counterexample.  On a concrete one-batch queue the per-epoch
outputs of `main` are the top-1 average 3, the speed average 7 and the
loss average 2, while the top-5 average of the run is 5, which is not
among them: the per-epoch output does not include the top-5 accuracy. -/
theorem C2_top5_counterexample :
    epochOutputs 1 [batchA] = Except.ok [3, 7, 2]
      ∧ inferTop5Avg 1 [batchA] = some 5
      ∧ (5 : ℚ) ∉ [(3 : ℚ), 7, 2] := by
  refine ⟨?_, ?_, by norm_num⟩ <;>
    norm_num [epochOutputs, inferTop5Avg, infer, inferLoop, pyMod, meterStep, reportStep,
      per_image_speed, tic, toc, InferState.init, AvgrageMeter.init, AvgrageMeter.update,
      AvgrageMeter.avg, batchA]

/-- C2, amended.  Per epoch the script reports the top-1 accuracy, the
per-image speed and the loss (the triple `infer` returns, of which
`main` logs `valid_acc` and `valid_speed_per_image` and writes the
`val_loss` scalar); the top-5 accuracy is computed but appears only in
the periodic progress lines inside `infer`, never in the per-epoch
output. -/
theorem C2_epoch_outputs (freq : Nat) (valid_queue : List Batch)
    (r : ℚ × ℚ × ℚ × InferState) (h : infer freq valid_queue = Except.ok r) :
    epochOutputs freq valid_queue = Except.ok [r.1, r.2.2.1, r.2.1] := by
  obtain ⟨acc, obj, speed, st⟩ := r
  simp [epochOutputs, h]

/-- Witness for C2: the amended statement at the concrete one-batch
queue. -/
theorem C2_epoch_outputs_witness :
    epochOutputs 1 [batchA] = Except.ok [(3 : ℚ), 7, 2] := by
  have h : infer 1 [batchA] = Except.ok ((3 : ℚ), (2 : ℚ), (7 : ℚ), stateA) := by
    norm_num [infer, inferLoop, pyMod, meterStep, reportStep, per_image_speed, tic, toc,
      InferState.init, AvgrageMeter.init, AvgrageMeter.update, AvgrageMeter.avg, batchA, stateA]
  exact C2_epoch_outputs 1 [batchA] _ h

/-- C3.  Graph-specification file selection in `main`: the small regime
(`regime = True`) reads exactly the three files with suffixes 3, 4, 5
in that order, and the regular regime (`regime = False`) reads exactly
the four files with suffixes 2, 3, 4, 5 in that order. -/
theorem C3_graph_file_selection (graph_txt : String) :
    graphFiles true graph_txt
        = [graph_txt ++ "3.txt", graph_txt ++ "4.txt", graph_txt ++ "5.txt"]
      ∧ graphFiles false graph_txt
        = [graph_txt ++ "2.txt", graph_txt ++ "3.txt", graph_txt ++ "4.txt", graph_txt ++ "5.txt"] :=
  ⟨rfl, rfl⟩

/-- C4.  When no GPU device is available `main` logs one message and
exits with status 1, and its event trace contains none of the later
stages (no graph loading, no model instantiation, no inference); when a
GPU is available `main` runs to completion, so the availability check
is the only exit point. -/
theorem C4_gpu_check (epochs : Nat) :
    mainRun false epochs = (MainResult.exited 1, [MainEvent.logNoGpu])
      ∧ MainEvent.graphLoad ∉ (mainRun false epochs).2
      ∧ MainEvent.modelInit ∉ (mainRun false epochs).2
      ∧ (∀ e, MainEvent.inferCall e ∉ (mainRun false epochs).2)
      ∧ (mainRun true epochs).1 = MainResult.completed := by
  refine ⟨rfl, by simp [mainRun], by simp [mainRun], ?_, rfl⟩
  intro e
  simp [mainRun]

/-- Witness for C4: instantiation at five epochs. -/
theorem C4_gpu_check_witness :
    mainRun false 5 = (MainResult.exited 1, [MainEvent.logNoGpu])
      ∧ MainEvent.graphLoad ∉ (mainRun false 5).2
      ∧ MainEvent.modelInit ∉ (mainRun false 5).2
      ∧ (∀ e, MainEvent.inferCall e ∉ (mainRun false 5).2)
      ∧ (mainRun true 5).1 = MainResult.completed :=
  C4_gpu_check 5

/-- C5.  The running-meter invariant: after feeding a meter the
value/count pairs of `updates`, its average is the count-weighted mean
of the fed values.  (`AvgrageMeter` is modelled from the spec, its
`utils.py` source not being part of the provided files.) -/
theorem C5_meter_weighted_mean (updates : List (ℚ × Nat))
    (_h : 0 < (updates.map Prod.snd).sum) :
    (updates.foldl (fun m vn => m.update vn.1 vn.2) AvgrageMeter.init).avg
      = (updates.map fun vn => vn.1 * (vn.2 : ℚ)).sum / (((updates.map Prod.snd).sum : Nat) : ℚ) := by
  unfold AvgrageMeter.avg
  rw [foldl_update_sum, foldl_update_cnt]
  simp [AvgrageMeter.init]

/-- Witness for C5: updates (3 weighted 2) then (5 weighted 1) give
average 11/3. -/
theorem C5_meter_weighted_mean_witness :
    0 < ([((3 : ℚ), 2), (5, 1)].map Prod.snd).sum
      ∧ ([((3 : ℚ), 2), (5, 1)].foldl (fun m vn => m.update vn.1 vn.2) AvgrageMeter.init).avg
        = ([((3 : ℚ), 2), (5, 1)].map fun vn => vn.1 * (vn.2 : ℚ)).sum
            / ((([((3 : ℚ), 2), (5, 1)].map Prod.snd).sum : Nat) : ℚ) :=
  ⟨by simp, C5_meter_weighted_mean [(3, 2), (5, 1)] (by simp)⟩

/-- C6.  `main`'s evaluation loop runs exactly `epochs` iterations,
each calling `infer` once on the same fixed validation queue and
recording that epoch's `valid_acc`, `valid_speed_per_image` and
`val_loss` scalar; with zero epochs nothing is recorded and no
inference happens. -/
theorem C6_epoch_loop (freq : Nat) (valid_queue : List Batch)
    (r : ℚ × ℚ × ℚ × InferState) (h : infer freq valid_queue = Except.ok r) (epochs : Nat) :
    mainEpochLoop freq valid_queue epochs
        = Except.ok ((List.range epochs).map fun e => ⟨e, r.1, r.2.2.1, r.2.1⟩)
      ∧ ((List.range epochs).map fun e => (⟨e, r.1, r.2.2.1, r.2.1⟩ : EpochLog)).length = epochs
      ∧ mainEpochLoop freq valid_queue 0 = Except.ok [] := by
  obtain ⟨acc, obj, speed, st⟩ := r
  refine ⟨?_, by simp, rfl⟩
  induction epochs with
  | zero => rfl
  | succ e ih =>
    simp only [mainEpochLoop]
    rw [ih, h]
    simp [List.range_succ]

/-- Witness for C6: two epochs over the concrete one-batch queue. -/
theorem C6_epoch_loop_witness :
    mainEpochLoop 1 [batchA] 2 = Except.ok [⟨0, 3, 7, 2⟩, ⟨1, 3, 7, 2⟩] := by
  have h : infer 1 [batchA] = Except.ok ((3 : ℚ), (2 : ℚ), (7 : ℚ), stateA) := by
    norm_num [infer, inferLoop, pyMod, meterStep, reportStep, per_image_speed, tic, toc,
      InferState.init, AvgrageMeter.init, AvgrageMeter.update, AvgrageMeter.avg, batchA, stateA]
  have h2 := (C6_epoch_loop 1 [batchA] (3, 2, 7, stateA) h 2).1
  simpa [List.range_succ] using h2

/-- C7.  The per-image latency of a batch is the measured interval
`toc - tic` divided by the batch size; the interval covers exactly the
model forward pass, and the recorded speed is unchanged by the
durations of the device transfer, the loss computation and the
accuracy computation. -/
theorem C7_per_image_speed (t0 : ℚ) (b : Batch) (h : b.n ≠ 0) :
    per_image_speed t0 b * (b.n : ℚ) = toc t0 b - tic t0 b
      ∧ toc t0 b - tic t0 b = b.dForward
      ∧ ∀ t1 dT dL dA,
          per_image_speed t1 { b with dTransfer := dT, dLoss := dL, dAcc := dA }
            = per_image_speed t0 b := by
  have hn : (b.n : ℚ) ≠ 0 := Nat.cast_ne_zero.mpr h
  refine ⟨?_, by simp [toc, tic], ?_⟩
  · simp [per_image_speed, toc, tic]
    field_simp
  · intro t1 dT dL dA
    simp [per_image_speed, toc, tic]

/-- Witness for C7: the concrete batch with transfer 11, forward 7,
loss 13, accuracy 17 and size 1, at start time 0. -/
theorem C7_per_image_speed_witness :
    per_image_speed 0 batchA * (batchA.n : ℚ) = toc 0 batchA - tic 0 batchA
      ∧ toc 0 batchA - tic 0 batchA = batchA.dForward
      ∧ ∀ t1 dT dL dA,
          per_image_speed t1 { batchA with dTransfer := dT, dLoss := dL, dAcc := dA }
            = per_image_speed 0 batchA :=
  C7_per_image_speed 0 batchA (by decide)

/-- C8.  With a non-zero report frequency `infer` emits a progress line
exactly at the steps divisible by the frequency, and on a non-empty
queue the first emitted line is for step 0. -/
theorem C8_report_steps (freq : Nat) (valid_queue : List Batch) (hf : freq ≠ 0) :
    ∃ s, infer freq valid_queue = Except.ok (s.top1.avg, s.objs.avg, s.speed.avg, s)
      ∧ s.logs.map LogLine.step = ((List.range valid_queue.length).filter fun k => k % freq = 0)
      ∧ (valid_queue ≠ [] → (s.logs.map LogLine.step).head? = some 0) := by
  obtain ⟨s, h1, h2⟩ := infer_ok freq hf valid_queue
  refine ⟨s, h1, h2, ?_⟩
  intro hne
  rw [h2]
  obtain ⟨b, rest, rfl⟩ := List.exists_cons_of_ne_nil hne
  simp [List.length_cons, List.range_eq_range', List.range'_succ, List.filter_cons,
    Nat.zero_mod]

/-- Witness for C8: frequency 2 over a three-batch queue logs steps 0
and 2, beginning with step 0. -/
theorem C8_report_steps_witness :
    ∃ s, infer 2 [batchA, batchA, batchA]
          = Except.ok (s.top1.avg, s.objs.avg, s.speed.avg, s)
      ∧ s.logs.map LogLine.step
          = ((List.range [batchA, batchA, batchA].length).filter fun k => k % 2 = 0)
      ∧ ([batchA, batchA, batchA] ≠ [] → (s.logs.map LogLine.step).head? = some 0) :=
  C8_report_steps 2 [batchA, batchA, batchA] (by decide)

/-- C9.  `--regime` is declared with `type=bool`, so any non-empty
command-line token (including "False" and "0") parses as `True`, and
the default is `True`; hence with any non-empty argument the parsed
regime is the small one and `main` reads the three-file list, never the
four-file regular list. -/
theorem C9_regime_cli (s : String) (h : s ≠ "") :
    pyBoolOfString s = true
      ∧ parseRegime (some s) = true
      ∧ parseRegime none = true
      ∧ ∀ txt, graphFiles (parseRegime (some s)) txt = graphFiles true txt
          ∧ (graphFiles (parseRegime (some s)) txt).length = 3 := by
  have hb : pyBoolOfString s = true := by
    simpa [pyBoolOfString, bne_iff_ne] using h
  refine ⟨hb, by simp [parseRegime, hb], rfl, ?_⟩
  intro txt
  constructor
  · simp [parseRegime, hb]
  · simp [parseRegime, hb, graphFiles]

/-- Witness for C9: the tokens "False" and "0" both parse as the small
regime. -/
theorem C9_regime_cli_witness :
    (pyBoolOfString "False" = true
      ∧ parseRegime (some "False") = true
      ∧ parseRegime none = true
      ∧ ∀ txt, graphFiles (parseRegime (some "False")) txt = graphFiles true txt
          ∧ (graphFiles (parseRegime (some "False")) txt).length = 3)
    ∧ (pyBoolOfString "0" = true
      ∧ parseRegime (some "0") = true
      ∧ parseRegime none = true
      ∧ ∀ txt, graphFiles (parseRegime (some "0")) txt = graphFiles true txt
          ∧ (graphFiles (parseRegime (some "0")) txt).length = 3) :=
  ⟨C9_regime_cli "False" (by decide), C9_regime_cli "0" (by decide)⟩

/-- C10.  A zero `report_freq` makes `step % args.report_freq` raise
`ZeroDivisionError` on the very first batch (step 0); with a non-zero
`report_freq` the modulo is total and `infer` completes every batch. -/
theorem C10_report_freq_zero (freq : Nat) (valid_queue : List Batch) :
    (freq = 0 → valid_queue ≠ [] → infer freq valid_queue = Except.error 0)
      ∧ (freq ≠ 0 → ∃ r, infer freq valid_queue = Except.ok r) := by
  constructor
  · rintro rfl hne
    obtain ⟨b, rest, rfl⟩ := List.exists_cons_of_ne_nil hne
    simp [infer, inferLoop, pyMod]
  · intro hf
    obtain ⟨s, h1, _⟩ := infer_ok freq hf valid_queue
    exact ⟨_, h1⟩

/-- Witness for C10: frequency 0 fails at step 0 on the one-batch
queue, frequency 3 succeeds on it. -/
theorem C10_report_freq_zero_witness :
    infer 0 [batchA] = Except.error 0 ∧ ∃ r, infer 3 [batchA] = Except.ok r :=
  ⟨(C10_report_freq_zero 0 [batchA]).1 rfl (by simp),
   (C10_report_freq_zero 3 [batchA]).2 (by decide)⟩

end Eval
